import Mathlib

/-!
Verification of the SmartCamera pose-geometry and scoring engine.

The definitions below are a shallow embedding of the repository sources:

* `src/utils/mathUtils.ts` — joint dictionary, skeleton enrichment, vector
  resolution, the signed angle engine and the two scoring functions;
* `src/utils/geometryUtils.ts` — projection, distances, deviation helpers
  and angle-label hit-testing;
* `src/components/organisms/EditorCanvas.tsx` — the editor tool state
  machine (`handleStart`);
* `src/services/orthopedicService.ts` and the unnamed orthopedic service
  file — the test analyzers.

Coordinates and angles are modelled as real numbers.  JavaScript
`Math.round` is modelled as `jsRound` (floor of `x + 1/2`, which is the
exact JavaScript semantics), and `Math.atan2 y x` as the argument of the
complex number `x + y*I`, which lies in `(-π, π]` exactly as the IEEE
function does on non-zero inputs.
-/

/-- Model of JavaScript `Math.round`: `⌊x + 1/2⌋` (halves round toward
positive infinity, matching JS). -/
def jsRound {K : Type} [LinearOrderedField K] [FloorRing K] (x : K) : ℤ :=
  ⌊x + 1 / 2⌋

/-- A 2-D point, `{x, y}` in the source `types.ts`. -/
structure Point where
  x : ℝ
  y : ℝ

/-- Port of `JOINT_DICT` from `src/utils/mathUtils.ts` (lines 6-23): maps a
joint name to its `(kp1, kp2)` keypoint pair. -/
def JOINT_DICT : String → Option (String × String)
  | "leftBiceps" => some ("leftShoulder", "leftElbow")
  | "rightBiceps" => some ("rightShoulder", "rightElbow")
  | "leftForarm" => some ("leftElbow", "leftWrist")
  | "rightForarm" => some ("rightElbow", "rightWrist")
  | "leftThigh" => some ("leftHip", "leftKnee")
  | "rightThigh" => some ("rightHip", "rightKnee")
  | "leftTibia" => some ("leftKnee", "leftAnkle")
  | "rightTibia" => some ("rightKnee", "rightAnkle")
  | "leftChest" => some ("leftShoulder", "leftHip")
  | "rightChest" => some ("rightShoulder", "rightHip")
  | "leftLeg" => some ("leftHip", "leftAnkle")
  | "rightLeg" => some ("rightHip", "rightAnkle")
  | "leftNeck" => some ("manubrium", "leftEar")
  | "rightNeck" => some ("manubrium", "rightEar")
  | "neck" => some ("manubrium", "nose")
  | _ => none

/-- Port of `buildEnrichedSkeleton` from `src/utils/mathUtils.ts` (lines
27-45): adds the `manubrium` and `pubis` midpoints when both source
keypoints exist.  Skeletons are modelled as maps from keypoint name to an
optional point. -/
noncomputable def buildEnrichedSkeleton (skeleton : String → Option Point) :
    String → Option Point :=
  fun key =>
    if key = "manubrium" then
      match skeleton "leftShoulder", skeleton "rightShoulder" with
      | some l, some r => some { x := (l.x + r.x) / 2, y := (l.y + r.y) / 2 }
      | _, _ => skeleton key
    else if key = "pubis" then
      match skeleton "leftHip", skeleton "rightHip" with
      | some l, some r => some { x := (l.x + r.x) / 2, y := (l.y + r.y) / 2 }
      | _, _ => skeleton key
    else skeleton key

/-- Port of `resolveVector` from `src/utils/mathUtils.ts` (lines 51-79):
resolves an axis token or a (possibly `-`-prefixed) joint name to a
direction vector. -/
noncomputable def resolveVector (jointName : String)
    (kps : String → Option Point) : Option (ℝ × ℝ) :=
  if jointName = "vertical" then some (0, 1)
  else if jointName = "-vertical" then some (0, -1)
  else if jointName = "horizontal" then some (1, 0)
  else if jointName = "-horizontal" then some (-1, 0)
  else
    let invert := jointName.startsWith "-"
    let name := if invert then jointName.drop 1 else jointName
    match JOINT_DICT name with
    | none => none
    | some (kp1, kp2) =>
      match kps kp1, kps kp2 with
      | some p1, some p2 =>
          some (if invert then (p1.x - p2.x, p1.y - p2.y)
                else (p2.x - p1.x, p2.y - p1.y))
      | _, _ => none

/-- Model of `Math.atan2 y x`: the argument of the complex number with real
part `x` and imaginary part `y`, lying in `(-π, π]`. -/
noncomputable def atan2 (y x : ℝ) : ℝ := Complex.arg { re := x, im := y }

/-- Port of `computeAngleVector` from `src/utils/mathUtils.ts` (lines
83-88): signed angle from `vec1` to `vec2` via `atan2(cross, dot)` in
degrees, shifted into `[0, 360)`. -/
noncomputable def computeAngleVector (v1 v2 : ℝ × ℝ) : ℝ :=
  let ang := atan2 (v1.1 * v2.2 - v1.2 * v2.1) (v1.1 * v2.1 + v1.2 * v2.2) *
    (180 / Real.pi)
  if ang < 0 then 360 + ang else ang

/-- The `AngleDef` record of `src/utils/mathUtils.ts` (lines 95-101). -/
structure AngleDef where
  center : String
  joint1 : String
  joint2 : String
  min : ℝ
  max : ℝ

/-- Port of `computeAngle` from `src/utils/mathUtils.ts` (lines 103-109).
The source deliberately calls `computeAngleVector(v2, v1)` with the
arguments swapped. -/
noncomputable def computeAngle (kps : String → Option Point) (d : AngleDef) :
    Option ℝ :=
  match resolveVector d.joint1 kps, resolveVector d.joint2 kps with
  | some v1, some v2 => some (computeAngleVector v2 v1)
  | _, _ => none

/-- Port of `getLinearScore` from `src/utils/mathUtils.ts` (lines 116-128). -/
def getLinearScore {K : Type} [LinearOrderedField K] [FloorRing K]
    (value : Option K) (min max : K) : ℤ :=
  match value with
  | none => 0
  | some v =>
    if min > max then
      if v ≤ max then 100
      else if v ≥ min then 0
      else jsRound ((v - min) / (max - min) * 100)
    else
      if v ≤ 0 then 0
      else if v ≥ max then 100
      else jsRound (v * 100 / max)

/-- Port of `getAverageScore` from `src/utils/mathUtils.ts` (lines
131-135): filters out negative scores, rounds the mean of the rest, and
returns 0 when nothing remains. -/
def getAverageScore {K : Type} [LinearOrderedField K] [FloorRing K]
    (scores : List K) : ℤ :=
  let valid := scores.filter (fun s => decide (s ≥ 0))
  if valid.length = 0 then 0
  else jsRound (valid.sum / (valid.length : K))

/-- The `EditorPoint` record of `types.ts`: an identified point in
normalized coordinates. -/
structure EditorPoint where
  id : String
  x : ℝ
  y : ℝ

/-- The `EditorConnection` record of `types.ts`.  The source fields are
named `from`/`to`; both are Lean keywords, so they are rendered as
`fromId`/`toId` here. -/
structure EditorConnection where
  id : String
  fromId : String
  toId : String

/-- The `EditorAngle` record of `types.ts`. -/
structure EditorAngle where
  id : String
  p1 : String
  center : String
  p2 : String

/-- The `EditorLayout` record of `types.ts`. -/
structure EditorLayout where
  renderW : ℝ
  renderH : ℝ
  offsetX : ℝ
  offsetY : ℝ

/-- The `EditorData` record of `types.ts`: the editable graph. -/
structure EditorData where
  points : List EditorPoint
  connections : List EditorConnection
  angles : List EditorAngle

/-- Port of `getDistance` from `src/utils/geometryUtils.ts` (lines 7-9). -/
noncomputable def getDistance (p1 p2 : Point) : ℝ :=
  Real.sqrt ((p2.x - p1.x) ^ 2 + (p2.y - p1.y) ^ 2)

/-- Port of the `project` helper from `src/utils/geometryUtils.ts` (lines
49-52): affine map from normalized editor space to render space. -/
noncomputable def project (normP : EditorPoint) (layout : EditorLayout) : Point :=
  { x := layout.offsetX + normP.x * layout.renderW
    y := layout.offsetY + normP.y * layout.renderH }

/-- Port of `calculateHorizontalDeviation` from
`src/utils/geometryUtils.ts` (lines 68-74): rounded absolute slope angle
of the left-to-right segment. -/
noncomputable def calculateHorizontalDeviation (left right : Point) : ℤ :=
  jsRound |atan2 (right.y - left.y) (right.x - left.x) * (180 / Real.pi)|

/-- Port of `hitTestAngle` from `src/utils/geometryUtils.ts` (lines
121-166): for each angle whose three points resolve, the cursor is tested
against the label point 45 px from the projected center along the midpoint
bearing of the shorter arc; the first hit wins.  The source locals
`cx cy ax ay bx by` are accessed through the projected points here
(`by` is a Lean keyword). -/
noncomputable def hitTestAngle (x y : ℝ) (angles : List EditorAngle)
    (points : List EditorPoint) (layout : EditorLayout) (tolerance : ℝ) :
    Option String :=
  match angles with
  | [] => none
  | angle :: rest =>
    match points.find? (fun p => p.id == angle.p1),
        points.find? (fun p => p.id == angle.center),
        points.find? (fun p => p.id == angle.p2) with
    | some p1, some pc, some p2 =>
      let sc := project pc layout
      let s1 := project p1 layout
      let s2 := project p2 layout
      let startAngle := atan2 (s1.y - sc.y) (s1.x - sc.x)
      let endAngle := atan2 (s2.y - sc.y) (s2.x - sc.x)
      let diff0 := endAngle - startAngle
      let diff :=
        if diff0 > Real.pi then diff0 - 2 * Real.pi
        else if diff0 ≤ -Real.pi then diff0 + 2 * Real.pi
        else diff0
      let midAngle := startAngle + diff / 2
      let tx := sc.x + Real.cos midAngle * 45
      let ty := sc.y + Real.sin midAngle * 45
      if getDistance { x := x, y := y } { x := tx, y := ty } < tolerance then
        some angle.id
      else hitTestAngle x y rest points layout tolerance
    | _, _, _ => hitTestAngle x y rest points layout tolerance

/-- Signed difference of the two arm bearings of an angle (in render
space), normalized into `(-π, π]` — the radian form of the `(-180°, 180°]`
interval named by the spec — to pick the shorter arc. -/
noncomputable def angleNormDiff (p1 pc p2 : EditorPoint) (layout : EditorLayout) : ℝ :=
  let sc := project pc layout
  let s1 := project p1 layout
  let s2 := project p2 layout
  let startAngle := atan2 (s1.y - sc.y) (s1.x - sc.x)
  let endAngle := atan2 (s2.y - sc.y) (s2.x - sc.x)
  let diff0 := endAngle - startAngle
  if diff0 > Real.pi then diff0 - 2 * Real.pi
  else if diff0 ≤ -Real.pi then diff0 + 2 * Real.pi
  else diff0

/-- Label point of an angle: 45 pixels from the projected center along the
midpoint bearing of the shorter arc. -/
noncomputable def angleLabelPoint (p1 pc p2 : EditorPoint) (layout : EditorLayout) :
    Point :=
  let sc := project pc layout
  let s1 := project p1 layout
  let startAngle := atan2 (s1.y - sc.y) (s1.x - sc.x)
  let midAngle := startAngle + angleNormDiff p1 pc p2 layout / 2
  { x := sc.x + Real.cos midAngle * 45, y := sc.y + Real.sin midAngle * 45 }

/-- The `EditorTool` enum of `types.ts`. -/
inductive EditorTool
  | MOVE
  | ADD_POINT
  | CONNECT
  | ANGLE
  | DELETE
deriving DecidableEq

/-- Transient editor state of `EditorCanvas.tsx`: the editable graph plus
the per-tool selection fields. -/
structure EditorState where
  data : EditorData
  draggingPointId : Option String
  connectingStartId : Option String
  selectedElementIds : List String

/-- Selection toggle from the ANGLE branch of `handleStart`
(`EditorCanvas.tsx` lines 437-442): remove the id when present, append it
otherwise. -/
def toggleSelection (sel : List String) (lid : String) : List String :=
  if sel.contains lid then sel.filter (fun i => i != lid)
  else sel ++ [lid]

/-- Duplicate-connection check from the CONNECT branch of `handleStart`
(`EditorCanvas.tsx` lines 386-390): a connection between the two points in
either direction. -/
def connectionExists (conns : List EditorConnection) (s p : String) : Bool :=
  conns.any (fun c => (c.fromId == s && c.toId == p) ||
    (c.fromId == p && c.toId == s))

/-- Duplicate-angle check from the ANGLE branch of `handleStart`
(`EditorCanvas.tsx` lines 472-476): same center and the same two arms in
either order. -/
def angleAlreadyExists (angles : List EditorAngle)
    (centerId p1Id p2Id : String) : Bool :=
  angles.any (fun a => a.center == centerId &&
    ((a.p1 == p1Id && a.p2 == p2Id) || (a.p1 == p2Id && a.p2 == p1Id)))

/-- Shared-vertex search of the ANGLE branch (`EditorCanvas.tsx` lines
453-469), checking the four from/to combinations in source order and
returning `(centerId, p1Id, p2Id)`. -/
def sharedVertexPick (c1 c2 : EditorConnection) :
    Option (String × String × String) :=
  if c1.fromId = c2.fromId then some (c1.fromId, c1.toId, c2.toId)
  else if c1.fromId = c2.toId then some (c1.fromId, c1.toId, c2.fromId)
  else if c1.toId = c2.fromId then some (c1.toId, c1.fromId, c2.toId)
  else if c1.toId = c2.toId then some (c1.toId, c1.fromId, c2.fromId)
  else none

/-- Port of `handleStart` from `EditorCanvas.tsx` (lines 353-493).  The
source computes `hitPointId`, `hitLineId` and `hitAngleId` from the cursor
via the three hit-test functions, generates fresh ids with the random
`generateId`, and derives `normX`/`normY` from the cursor and layout;
those values enter here as parameters. -/
noncomputable def handleStart (tool : EditorTool)
    (hitPointId hitLineId hitAngleId : Option String) (newId : String)
    (normX normY : ℝ) (st : EditorState) : EditorState :=
  match tool with
  | EditorTool.MOVE =>
    match hitPointId with
    | some pid => { st with draggingPointId := some pid }
    | none => st
  | EditorTool.ADD_POINT =>
    match hitPointId with
    | some _ => st
    | none =>
      if 0 ≤ normX ∧ normX ≤ 1 ∧ 0 ≤ normY ∧ normY ≤ 1 then
        { st with data := { st.data with
            points := st.data.points ++ [{ id := newId, x := normX, y := normY }] } }
      else st
  | EditorTool.CONNECT =>
    match hitPointId with
    | some pid =>
      match st.connectingStartId with
      | some startId =>
        if startId ≠ pid then
          let st1 :=
            if connectionExists st.data.connections startId pid then st
            else { st with data := { st.data with
                connections := st.data.connections ++
                  [{ id := newId, fromId := startId, toId := pid }] } }
          { st1 with connectingStartId := none }
        else { st with connectingStartId := some pid }
      | none => { st with connectingStartId := some pid }
    | none => { st with connectingStartId := none }
  | EditorTool.DELETE =>
    match hitAngleId with
    | some aid =>
      { st with data := { st.data with
          angles := st.data.angles.filter (fun a => a.id != aid) } }
    | none =>
      match hitPointId with
      | some pid =>
        { st with data :=
          { points := st.data.points.filter (fun p => p.id != pid)
            connections := st.data.connections.filter
              (fun c => c.fromId != pid && c.toId != pid)
            angles := st.data.angles.filter
              (fun a => a.p1 != pid && a.center != pid && a.p2 != pid) } }
      | none =>
        match hitLineId with
        | some lid =>
          match st.data.connections.find? (fun c => c.id == lid) with
          | some conn =>
            { st with data := { st.data with
                connections := st.data.connections.filter (fun c => c.id != lid)
                angles := st.data.angles.filter (fun a =>
                  !((a.center == conn.fromId &&
                      (a.p1 == conn.toId || a.p2 == conn.toId)) ||
                    (a.center == conn.toId &&
                      (a.p1 == conn.fromId || a.p2 == conn.fromId)))) } }
          | none => st
        | none => st
  | EditorTool.ANGLE =>
    match hitLineId with
    | none => { st with selectedElementIds := [] }
    | some lid =>
      let newSelection := toggleSelection st.selectedElementIds lid
      match newSelection with
      | [id1, id2] =>
        match st.data.connections.find? (fun c => c.id == id1),
            st.data.connections.find? (fun c => c.id == id2) with
        | some conn1, some conn2 =>
          match sharedVertexPick conn1 conn2 with
          | some (centerId, p1Id, p2Id) =>
            let st1 :=
              if angleAlreadyExists st.data.angles centerId p1Id p2Id then st
              else { st with data := { st.data with
                  angles := st.data.angles ++
                    [{ id := newId, p1 := p1Id, center := centerId, p2 := p2Id }] } }
            { st1 with selectedElementIds := [] }
          | none => { st with selectedElementIds := [lid] }
        | _, _ => { st with selectedElementIds := newSelection }
      | _ => { st with selectedElementIds := newSelection }

/-- The `HealthWarning` record of `types.ts`; the `level` union
`low | medium | high` is kept as a string. -/
structure HealthWarning where
  level : String
  message : String
  futureRisk : String

/-- The `HealthReport` record of `types.ts`.  Every score produced by the
analyzers is an integer, so `score` is modelled as `ℤ`. -/
structure HealthReport where
  score : ℤ
  title : String
  description : String
  details : List String
  warnings : List HealthWarning

/-- The `AIAnalysisResult` record of `types.ts`, restricted to the fields
the analyzers read (the face box is rendering-only). -/
structure AIAnalysisResult where
  skeleton : String → Option Point
  confidence : ℝ

/-- Port of the `shoulder_level` test `analyze` function from
`src/services/orthopedicService.ts` (lines 17-54).  The translator is a
function from key and formatted arguments to text, and `fmtZ` models the
JavaScript number-to-string conversion of the integer deviation. -/
noncomputable def shoulderLevelAnalyze (data : String → Option Point)
    (t : String → List String → String) (fmtZ : ℤ → String) :
    Option HealthReport :=
  match data "leftShoulder", data "rightShoulder" with
  | some left, some right =>
    let deviation := calculateHorizontalDeviation left right
    some
      { score :=
          if deviation > 5 then max 0 (100 - deviation * 5)
          else if deviation > 2 then 90
          else 100
        title :=
          if deviation > 5 then t "diag.shoulder.significant" []
          else if deviation > 2 then t "diag.shoulder.mild" []
          else t "diag.shoulder.balanced" []
        description :=
          if deviation ≤ 2 then t "desc.shoulder.good" []
          else t "desc.shoulder.bad" []
        details := [t "detail.shoulder.angle" [fmtZ deviation]]
        warnings :=
          if deviation > 5 then
            [{ level := if deviation > 10 then "high" else "medium"
               message := t "diag.shoulder.msg_significant" [fmtZ deviation]
               futureRisk := t "risk.shoulder.chronic" [] }]
          else if deviation > 2 then
            [{ level := "low"
               message := t "diag.shoulder.msg_mild" [fmtZ deviation]
               futureRisk := t "risk.shoulder.muscle" [] }]
          else [] }
  | _, _ => none

/-- Rendering of an optional angle in the detail strings of the unnamed
orthopedic service file: `toFixed(1)` on a present value, `--` otherwise. -/
def fmtOpt (fmtR : ℝ → String) : Option ℝ → String
  | some a => fmtR a
  | none => "--"

/-- Port of `scorePose` from the unnamed orthopedic service file (lines
25-37): score a single pose against one `AngleDef`; `-1` flags missing
keypoints.  The integer-valued JavaScript score is modelled as `ℚ`
because it is later fed back into `getAverageScore`. -/
noncomputable def scorePose (dataMap : String → Option AIAnalysisResult)
    (poseId : String) (angleDef : AngleDef) (fmtR : ℝ → String) :
    ℚ × String :=
  match dataMap poseId with
  | none => (-1, "--")
  | some raw =>
    match computeAngle (buildEnrichedSkeleton raw.skeleton) angleDef with
    | none => (-1, "--")
    | some angle =>
      (((getLinearScore (some angle) angleDef.min angleDef.max : ℤ) : ℚ),
       fmtR angle ++ "° / " ++ fmtR angleDef.max ++ "°")

/-- Port of the `shoulder_mobility` test `analyze` function from the
unnamed orthopedic service file (lines 81-184).  The body accumulates
scores and detail lines block by block and always ends in a report. -/
noncomputable def shoulderMobilityAnalyze
    (dataMap : String → Option AIAnalysisResult)
    (t : String → List String → String) (fmtR : ℝ → String) :
    Option HealthReport :=
  let FRONT_LEFT : AngleDef :=
    { center := "leftShoulder", joint2 := "leftBiceps", joint1 := "vertical",
      min := 0, max := 180 }
  let FRONT_RIGHT : AngleDef :=
    { center := "rightShoulder", joint1 := "rightBiceps", joint2 := "vertical",
      min := 0, max := 180 }
  let front : List ℚ × List String :=
    match dataMap "frontShoulder" with
    | some raw =>
      let kps := buildEnrichedSkeleton raw.skeleton
      let aLeft := computeAngle kps FRONT_LEFT
      let aRight := computeAngle kps FRONT_RIGHT
      let sLeft : ℚ :=
        match aLeft with
        | some a => ((getLinearScore (some a) FRONT_LEFT.min FRONT_LEFT.max : ℤ) : ℚ)
        | none => -1
      let sRight : ℚ :=
        match aRight with
        | some a => ((getLinearScore (some a) FRONT_RIGHT.min FRONT_RIGHT.max : ℤ) : ℚ)
        | none => -1
      let avg := getAverageScore [sLeft, sRight]
      (if (avg : ℚ) ≥ 0 then [(avg : ℚ)] else [],
       [t "pose.shoulder.front" [] ++ ": L=" ++ fmtOpt fmtR aLeft ++ "° R=" ++
         fmtOpt fmtR aRight ++ "° (max 180°)"])
    | none => ([], [])
  let LEFT_FWD : AngleDef :=
    { center := "leftShoulder", joint1 := "leftBiceps", joint2 := "vertical",
      min := 0, max := 180 }
  let r2 := scorePose dataMap "leftShoulder" LEFT_FWD fmtR
  let RIGHT_FWD : AngleDef :=
    { center := "rightShoulder", joint2 := "rightBiceps", joint1 := "vertical",
      min := 0, max := 180 }
  let r3 := scorePose dataMap "rightShoulder" RIGHT_FWD fmtR
  let LEFT_BWD : AngleDef :=
    { center := "leftShoulder", joint2 := "leftBiceps", joint1 := "vertical",
      min := 0, max := 50 }
  let r4 := scorePose dataMap "leftShoulderBackward" LEFT_BWD fmtR
  let RIGHT_BWD : AngleDef :=
    { center := "rightShoulder", joint1 := "rightBiceps", joint2 := "vertical",
      min := 0, max := 50 }
  let r5 := scorePose dataMap "rightShoulderBackward" RIGHT_BWD fmtR
  let scores := front.1 ++ (if r2.1 ≥ 0 then [r2.1] else []) ++
    (if r3.1 ≥ 0 then [r3.1] else []) ++ (if r4.1 ≥ 0 then [r4.1] else []) ++
    (if r5.1 ≥ 0 then [r5.1] else [])
  let details := front.2 ++
    [t "pose.shoulder.left_forward" [] ++ ": " ++ r2.2] ++
    [t "pose.shoulder.right_forward" [] ++ ": " ++ r3.2] ++
    [t "pose.shoulder.left_backward" [] ++ ": " ++ r4.2] ++
    [t "pose.shoulder.right_backward" [] ++ ": " ++ r5.2]
  let totalScore := getAverageScore scores
  some
    { score := totalScore
      title := if totalScore > 80 then t "diag.shoulder.good" []
        else t "diag.shoulder.restricted" []
      description := if totalScore > 80 then t "desc.shoulder.good" []
        else t "desc.shoulder.restricted" []
      details := details
      warnings := [] }

/-- Port of the `neck_mobility` test `analyze` function from the unnamed
orthopedic service file (lines 220-289).  Like `shoulder_mobility`, the
body always ends in a report. -/
noncomputable def neckMobilityAnalyze
    (dataMap : String → Option AIAnalysisResult)
    (t : String → List String → String) (fmtR : ℝ → String) :
    Option HealthReport :=
  let NECK_RIGHT_SIDE : AngleDef :=
    { center := "manubrium", joint1 := "-vertical", joint2 := "neck",
      min := 0, max := 50 }
  let r1 := scorePose dataMap "neckRightSideBend" NECK_RIGHT_SIDE fmtR
  let NECK_LEFT_SIDE : AngleDef :=
    { center := "manubrium", joint2 := "-vertical", joint1 := "neck",
      min := 0, max := 50 }
  let r2 := scorePose dataMap "neckLeftSideBend" NECK_LEFT_SIDE fmtR
  let NECK_FRONT : AngleDef :=
    { center := "manubrium", joint1 := "rightNeck", joint2 := "-vertical",
      min := 0, max := 60 }
  let r3 := scorePose dataMap "neckFrontBend" NECK_FRONT fmtR
  let NECK_BACK : AngleDef :=
    { center := "manubrium", joint1 := "-vertical", joint2 := "rightNeck",
      min := -30, max := 50 }
  let r4 := scorePose dataMap "neckBackBend" NECK_BACK fmtR
  let scores := (if r1.1 ≥ 0 then [r1.1] else []) ++
    (if r2.1 ≥ 0 then [r2.1] else []) ++ (if r3.1 ≥ 0 then [r3.1] else []) ++
    (if r4.1 ≥ 0 then [r4.1] else [])
  let details :=
    [t "pose.neck.right_side_bend" [] ++ ": " ++ r1.2] ++
    [t "pose.neck.left_side_bend" [] ++ ": " ++ r2.2] ++
    [t "pose.neck.front_bend" [] ++ ": " ++ r3.2] ++
    [t "pose.neck.back_bend" [] ++ ": " ++ r4.2]
  let totalScore := getAverageScore scores
  some
    { score := totalScore
      title := t "diag.neck.good" []
      description := t "desc.neck.good" []
      details := details
      warnings := [] }

/-- Fixture connection A-B used by concrete witness theorems. -/
def egConnAB : EditorConnection := { id := "c1", fromId := "A", toId := "B" }

/-- Fixture connection B-C used by concrete witness theorems. -/
def egConnBC : EditorConnection := { id := "c2", fromId := "B", toId := "C" }

/-- Fixture angle with center A on arm points X and B. -/
def egAngleXAB : EditorAngle := { id := "a1", p1 := "X", center := "A", p2 := "B" }

/-- Fixture editor graph: four points, the two connections and one angle. -/
def egData : EditorData :=
  { points := [{ id := "A", x := 0, y := 0 }, { id := "B", x := 1, y := 0 },
      { id := "C", x := 1, y := 1 }, { id := "X", x := 0, y := 1 }]
    connections := [egConnAB, egConnBC]
    angles := [egAngleXAB] }

/-- Fixture editor state with empty transient selections. -/
def egState : EditorState :=
  { data := egData, draggingPointId := none, connectingStartId := none,
    selectedElementIds := [] }

/-- Fixture editor state with connection `c1` already selected (ANGLE tool). -/
def egStateSel : EditorState :=
  { egState with selectedElementIds := ["c1"] }

/-- Fixture editor state with a pending CONNECT start at point A. -/
def egStateConnect : EditorState :=
  { egState with connectingStartId := some "A" }

/-- Fixture editor points for the angle-label hit test. -/
def egEP1 : EditorPoint := { id := "A", x := 1, y := 0 }

/-- Fixture center point for the angle-label hit test. -/
def egEPc : EditorPoint := { id := "B", x := 0, y := 0 }

/-- Fixture second arm point for the angle-label hit test. -/
def egEP2 : EditorPoint := { id := "C", x := 0, y := 1 }

/-- Fixture point list for the angle-label hit test. -/
def egEPoints : List EditorPoint := [egEP1, egEPc, egEP2]

/-- Fixture layout for the angle-label hit test. -/
def egLayout : EditorLayout :=
  { renderW := 100, renderH := 100, offsetX := 0, offsetY := 0 }

/-- Fixture angle record for the angle-label hit test. -/
def egEAngle : EditorAngle := { id := "ang1", p1 := "A", center := "B", p2 := "C" }

/-- Fixture skeleton with every keypoint absent. -/
def emptySkeleton : String → Option Point := fun _ => none

/-- Fixture pose map: every pose captured, but with an empty skeleton. -/
def egPoseMap : String → Option AIAnalysisResult :=
  fun _ => some { skeleton := emptySkeleton, confidence := 1 }

/-- Fixture translator returning the key itself. -/
def egTranslator : String → List String → String := fun key _ => key

/-- Fixture real-number formatter. -/
def egFmtR : ℝ → String := fun _ => ""

/-- Fixture integer formatter. -/
def egFmtZ : ℤ → String := fun _ => ""

lemma conj_mk_eq (x y : ℝ) :
    (starRingEnd ℂ) { re := x, im := y } = ({ re := x, im := -y } : ℂ) :=
  Complex.ext (by simp) (by simp)

lemma atan2_mem_Ioc (y x : ℝ) : atan2 y x ∈ Set.Ioc (-Real.pi) Real.pi :=
  Complex.arg_mem_Ioc _

lemma atan2_neg_im (y x : ℝ) :
    atan2 (-y) x = if atan2 y x = Real.pi then Real.pi else -atan2 y x := by
  unfold atan2
  rw [← conj_mk_eq, Complex.arg_conj]

lemma degScale_pos : (0 : ℝ) < 180 / Real.pi :=
  div_pos (by norm_num) Real.pi_pos

lemma pi_mul_degScale : Real.pi * (180 / Real.pi) = 180 := by
  rw [mul_comm, div_mul_cancel₀]
  exact Real.pi_ne_zero

lemma angle_deg_bounds (y x : ℝ) :
    -180 < atan2 y x * (180 / Real.pi) ∧ atan2 y x * (180 / Real.pi) ≤ 180 := by
  obtain ⟨hlo, hhi⟩ := atan2_mem_Ioc y x
  have hc : (0 : ℝ) < 180 / Real.pi := degScale_pos
  constructor
  · have h := mul_lt_mul_of_pos_right hlo hc
    have he : -Real.pi * (180 / Real.pi) = -180 := by
      rw [neg_mul, pi_mul_degScale]
    linarith [h, he.symm.le]
  · have h := mul_le_mul_of_nonneg_right hhi hc.le
    calc atan2 y x * (180 / Real.pi) ≤ Real.pi * (180 / Real.pi) := h
      _ = 180 := pi_mul_degScale

lemma shift_bounds {a : ℝ} (h1 : -180 < a) (h2 : a ≤ 180) :
    0 ≤ (if a < 0 then 360 + a else a) ∧ (if a < 0 then 360 + a else a) < 360 := by
  split <;> constructor <;> linarith

lemma computeAngleVector_eq (v1 v2 : ℝ × ℝ) :
    computeAngleVector v1 v2 =
      if atan2 (v1.1 * v2.2 - v1.2 * v2.1) (v1.1 * v2.1 + v1.2 * v2.2) *
          (180 / Real.pi) < 0 then
        360 + atan2 (v1.1 * v2.2 - v1.2 * v2.1) (v1.1 * v2.1 + v1.2 * v2.2) *
          (180 / Real.pi)
      else atan2 (v1.1 * v2.2 - v1.2 * v2.1) (v1.1 * v2.1 + v1.2 * v2.2) *
          (180 / Real.pi) :=
  rfl

lemma computeAngleVector_bounds (v1 v2 : ℝ × ℝ) :
    0 ≤ computeAngleVector v1 v2 ∧ computeAngleVector v1 v2 < 360 := by
  rw [computeAngleVector_eq]
  exact shift_bounds (angle_deg_bounds _ _).1 (angle_deg_bounds _ _).2

lemma angle_pair_sum (y x : ℝ) :
    (if atan2 y x * (180 / Real.pi) < 0 then 360 + atan2 y x * (180 / Real.pi)
      else atan2 y x * (180 / Real.pi)) +
    (if atan2 (-y) x * (180 / Real.pi) < 0 then 360 + atan2 (-y) x * (180 / Real.pi)
      else atan2 (-y) x * (180 / Real.pi)) = 0 ∨
    (if atan2 y x * (180 / Real.pi) < 0 then 360 + atan2 y x * (180 / Real.pi)
      else atan2 y x * (180 / Real.pi)) +
    (if atan2 (-y) x * (180 / Real.pi) < 0 then 360 + atan2 (-y) x * (180 / Real.pi)
      else atan2 (-y) x * (180 / Real.pi)) = 360 := by
  have hc : (0 : ℝ) < 180 / Real.pi := degScale_pos
  rw [atan2_neg_im]
  by_cases hpi : atan2 y x = Real.pi
  · rw [if_pos hpi, hpi, pi_mul_degScale]
    right
    norm_num
  · rw [if_neg hpi]
    have hneg : -atan2 y x * (180 / Real.pi) = -(atan2 y x * (180 / Real.pi)) := by
      ring
    rw [hneg]
    rcases lt_trichotomy (atan2 y x * (180 / Real.pi)) 0 with hlt | heq | hgt
    · right
      rw [if_pos hlt, if_neg (by linarith : ¬-(atan2 y x * (180 / Real.pi)) < 0)]
      ring
    · left
      rw [heq]
      norm_num
    · right
      rw [if_neg (by linarith : ¬atan2 y x * (180 / Real.pi) < 0),
        if_pos (by linarith : -(atan2 y x * (180 / Real.pi)) < 0)]
      ring

/-- C1: `computeAngle` returns absent exactly when resolving `joint1` or
`joint2` is absent, and otherwise applies `computeAngleVector` to the
vector of `joint2` first and the vector of `joint1` second — the swapped
order relative to the declared `joint1, joint2` order. -/
theorem computeAngle_evaluate_spec (kps : String → Option Point) (d : AngleDef) :
    (computeAngle kps d = none ↔
      resolveVector d.joint1 kps = none ∨ resolveVector d.joint2 kps = none) ∧
    ∀ v1 v2, resolveVector d.joint1 kps = some v1 →
      resolveVector d.joint2 kps = some v2 →
      computeAngle kps d = some (computeAngleVector v2 v1) := by
  cases h1 : resolveVector d.joint1 kps <;>
    cases h2 : resolveVector d.joint2 kps <;>
    simp [computeAngle, h1, h2]

theorem computeAngle_evaluate_spec_witness :
    resolveVector "vertical" (fun _ => none) = some (0, 1) ∧
    resolveVector "horizontal" (fun _ => none) = some (1, 0) ∧
    computeAngle (fun _ => none)
        { center := "c", joint1 := "vertical", joint2 := "horizontal",
          min := 0, max := 180 } =
      some (computeAngleVector (1, 0) (0, 1)) :=
  ⟨rfl, rfl,
    (computeAngle_evaluate_spec (fun _ => none)
      { center := "c", joint1 := "vertical", joint2 := "horizontal",
        min := 0, max := 180 }).2 (0, 1) (1, 0) rfl rfl⟩

/-- C2: `getLinearScore` returns 0 on an absent value; in the descending
branch (`min > max`) it clamps at both declared bounds and interpolates
linearly in between; in the ascending branch (`min ≤ max`) it clamps at 0
and `max` and interpolates `value*100/max`, so the result there never
depends on the declared `min`. -/
theorem getLinearScore_branches {K : Type} [LinearOrderedField K] [FloorRing K]
    (v min max : K) :
    getLinearScore (none : Option K) min max = 0 ∧
    (min > max → v ≤ max → getLinearScore (some v) min max = 100) ∧
    (min > max → v ≥ min → getLinearScore (some v) min max = 0) ∧
    (min > max → ¬v ≤ max → ¬v ≥ min →
      getLinearScore (some v) min max = jsRound ((v - min) / (max - min) * 100)) ∧
    (min ≤ max → v ≤ 0 → getLinearScore (some v) min max = 0) ∧
    (min ≤ max → ¬v ≤ 0 → v ≥ max → getLinearScore (some v) min max = 100) ∧
    (min ≤ max → ¬v ≤ 0 → ¬v ≥ max →
      getLinearScore (some v) min max = jsRound (v * 100 / max)) ∧
    (∀ min2 : K, min ≤ max → min2 ≤ max →
      getLinearScore (some v) min max = getLinearScore (some v) min2 max) := by
  refine ⟨rfl, ?_, ?_, ?_, ?_, ?_, ?_, ?_⟩ <;> intros <;>
    simp only [getLinearScore] <;> split_ifs <;>
    first | rfl | (exfalso; linarith)

theorem getLinearScore_branches_witness :
    ((50 : ℚ) > 0) ∧ ¬((25 : ℚ) ≤ 0) ∧ ¬((25 : ℚ) ≥ 50) ∧
    getLinearScore (some (25 : ℚ)) 50 0 =
      jsRound (((25 : ℚ) - 50) / (0 - 50) * 100) :=
  ⟨by decide, by decide, by decide,
    (getLinearScore_branches (25 : ℚ) 50 0).2.2.2.1 (by decide) (by decide)
      (by decide)⟩

/-- C3: `getAverageScore` drops negative entries, returns the rounded mean
of what remains, and returns 0 when nothing remains; in particular the
three library examples evaluate as stated. -/
theorem getAverageScore_spec :
    (∀ l : List ℚ, l.filter (fun s => decide (s ≥ 0)) = [] →
      getAverageScore l = 0) ∧
    (∀ l v : List ℚ, l.filter (fun s => decide (s ≥ 0)) = v → v ≠ [] →
      getAverageScore l = jsRound (v.sum / (v.length : ℚ))) ∧
    getAverageScore ([] : List ℚ) = 0 ∧
    getAverageScore [(-1 : ℚ), -1] = 0 ∧
    getAverageScore [(80 : ℚ), -1, 100] = 90 := by
  refine ⟨?_, ?_, by rfl, by norm_num [getAverageScore],
    by norm_num [getAverageScore, jsRound]⟩
  · intro l h
    simp [getAverageScore, h]
  · intro l v h hv
    simp [getAverageScore, h, hv]

theorem getAverageScore_spec_witness :
    [(80 : ℚ), -1, 100].filter (fun s => decide (s ≥ 0)) = [80, 100] ∧
    ([(80 : ℚ), 100] ≠ []) ∧
    getAverageScore [(80 : ℚ), -1, 100] =
      jsRound (([(80 : ℚ), 100]).sum / (([(80 : ℚ), 100]).length : ℚ)) :=
  ⟨by norm_num, by simp,
    getAverageScore_spec.2.1 _ _ (by norm_num) (by simp)⟩

/-- C8: for nonzero vectors, `computeAngleVector` lands in `[0, 360)`, and
evaluating the two argument orders gives values summing to 0 or 360. -/
theorem computeAngleVector_range_antisymmetry (a b : ℝ × ℝ)
    (_ha : a ≠ (0, 0)) (_hb : b ≠ (0, 0)) :
    (0 ≤ computeAngleVector a b ∧ computeAngleVector a b < 360) ∧
    (computeAngleVector a b + computeAngleVector b a = 0 ∨
      computeAngleVector a b + computeAngleVector b a = 360) := by
  refine ⟨computeAngleVector_bounds a b, ?_⟩
  rw [computeAngleVector_eq a b, computeAngleVector_eq b a]
  have hcross : b.1 * a.2 - b.2 * a.1 = -(a.1 * b.2 - a.2 * b.1) := by ring
  have hdot : b.1 * a.1 + b.2 * a.2 = a.1 * b.1 + a.2 * b.2 := by ring
  rw [hcross, hdot]
  exact angle_pair_sum (a.1 * b.2 - a.2 * b.1) (a.1 * b.1 + a.2 * b.2)

theorem computeAngleVector_range_antisymmetry_witness :
    (((1 : ℝ), (0 : ℝ)) ≠ ((0 : ℝ), (0 : ℝ))) ∧
    (((0 : ℝ), (1 : ℝ)) ≠ ((0 : ℝ), (0 : ℝ))) ∧
    ((0 ≤ computeAngleVector ((1 : ℝ), (0 : ℝ)) ((0 : ℝ), (1 : ℝ)) ∧
        computeAngleVector ((1 : ℝ), (0 : ℝ)) ((0 : ℝ), (1 : ℝ)) < 360) ∧
      (computeAngleVector ((1 : ℝ), (0 : ℝ)) ((0 : ℝ), (1 : ℝ)) +
          computeAngleVector ((0 : ℝ), (1 : ℝ)) ((1 : ℝ), (0 : ℝ)) = 0 ∨
        computeAngleVector ((1 : ℝ), (0 : ℝ)) ((0 : ℝ), (1 : ℝ)) +
          computeAngleVector ((0 : ℝ), (1 : ℝ)) ((1 : ℝ), (0 : ℝ)) = 360)) :=
  ⟨by simp, by simp,
    computeAngleVector_range_antisymmetry _ _ (by simp) (by simp)⟩

/-- C5: under the DELETE tool, a pointer-down resolving to a point (and to
no angle label) removes, in the same operation, that point, every
connection having it as an endpoint, and every angle referencing it as
center or arm; everything else survives unchanged. -/
theorem deletePoint_cascade (hitLineId : Option String) (newId : String)
    (normX normY : ℝ) (st : EditorState) (pid : String) :
    (∀ p, p ∈ (handleStart EditorTool.DELETE (some pid) hitLineId none newId
        normX normY st).data.points ↔ p ∈ st.data.points ∧ p.id ≠ pid) ∧
    (∀ c, c ∈ (handleStart EditorTool.DELETE (some pid) hitLineId none newId
        normX normY st).data.connections ↔
      c ∈ st.data.connections ∧ c.fromId ≠ pid ∧ c.toId ≠ pid) ∧
    (∀ a, a ∈ (handleStart EditorTool.DELETE (some pid) hitLineId none newId
        normX normY st).data.angles ↔
      a ∈ st.data.angles ∧ a.p1 ≠ pid ∧ a.center ≠ pid ∧ a.p2 ≠ pid) := by
  simp [handleStart, List.mem_filter, and_assoc]

/-- C6: under the DELETE tool, a pointer-down resolving to a connection
(and to no point or angle label) removes that connection and exactly the
angles whose center is one endpoint of it while one of their arms is the
other endpoint, in either direction; points and all other angles are
unchanged. -/
theorem deleteConnection_cascade (newId : String) (normX normY : ℝ)
    (st : EditorState) (lid : String) (conn : EditorConnection)
    (hfind : st.data.connections.find? (fun c => c.id == lid) = some conn) :
    ((handleStart EditorTool.DELETE none (some lid) none newId normX normY
        st).data.points = st.data.points) ∧
    (∀ c, c ∈ (handleStart EditorTool.DELETE none (some lid) none newId
        normX normY st).data.connections ↔
      c ∈ st.data.connections ∧ c.id ≠ lid) ∧
    (∀ a, a ∈ (handleStart EditorTool.DELETE none (some lid) none newId
        normX normY st).data.angles ↔
      a ∈ st.data.angles ∧
      ¬((a.center = conn.fromId ∧ (a.p1 = conn.toId ∨ a.p2 = conn.toId)) ∨
        (a.center = conn.toId ∧ (a.p1 = conn.fromId ∨ a.p2 = conn.fromId)))) := by
  simp [handleStart, hfind, List.mem_filter, and_assoc]
  intro a _
  tauto

theorem deleteConnection_cascade_witness :
    egState.data.connections.find? (fun c => c.id == "c1") = some egConnAB ∧
    ((handleStart EditorTool.DELETE none (some "c1") none "n1" 0 0
        egState).data.points = egState.data.points) ∧
    (∀ c, c ∈ (handleStart EditorTool.DELETE none (some "c1") none "n1" 0 0
        egState).data.connections ↔
      c ∈ egState.data.connections ∧ c.id ≠ "c1") ∧
    (∀ a, a ∈ (handleStart EditorTool.DELETE none (some "c1") none "n1" 0 0
        egState).data.angles ↔
      a ∈ egState.data.angles ∧
      ¬((a.center = egConnAB.fromId ∧
          (a.p1 = egConnAB.toId ∨ a.p2 = egConnAB.toId)) ∨
        (a.center = egConnAB.toId ∧
          (a.p1 = egConnAB.fromId ∨ a.p2 = egConnAB.fromId)))) :=
  ⟨rfl, deleteConnection_cascade "n1" 0 0 egState "c1" egConnAB rfl⟩

/-- C7: under the ANGLE tool, when toggling the hit connection yields a
selection of exactly two ids that both resolve to connections, a shared
vertex (searched over all four from/to combinations) becomes the center of
the new angle whose arms are the two non-shared endpoints, the angle is
created only when no angle with that center and those arms (in either arm
order) exists, and the selection is cleared; when no vertex is shared the
selection collapses to just the most recently clicked connection id. -/
theorem angleTool_pair_selection (hitPointId hitAngleId : Option String)
    (newId : String) (normX normY : ℝ) (st : EditorState)
    (lid id1 id2 : String) (conn1 conn2 : EditorConnection)
    (hsel : toggleSelection st.selectedElementIds lid = [id1, id2])
    (hf1 : st.data.connections.find? (fun c => c.id == id1) = some conn1)
    (hf2 : st.data.connections.find? (fun c => c.id == id2) = some conn2) :
    (∀ cen q1 q2, sharedVertexPick conn1 conn2 = some (cen, q1, q2) →
      ((conn1.fromId = cen ∧ conn1.toId = q1) ∨
        (conn1.toId = cen ∧ conn1.fromId = q1)) ∧
      ((conn2.fromId = cen ∧ conn2.toId = q2) ∨
        (conn2.toId = cen ∧ conn2.fromId = q2))) ∧
    (∀ cen q1 q2, sharedVertexPick conn1 conn2 = some (cen, q1, q2) →
      (handleStart EditorTool.ANGLE hitPointId (some lid) hitAngleId newId
          normX normY st).selectedElementIds = [] ∧
      (angleAlreadyExists st.data.angles cen q1 q2 = true →
        (handleStart EditorTool.ANGLE hitPointId (some lid) hitAngleId newId
          normX normY st).data.angles = st.data.angles) ∧
      (angleAlreadyExists st.data.angles cen q1 q2 = false →
        (handleStart EditorTool.ANGLE hitPointId (some lid) hitAngleId newId
          normX normY st).data.angles =
          st.data.angles ++ [{ id := newId, p1 := q1, center := cen, p2 := q2 }])) ∧
    (sharedVertexPick conn1 conn2 = none →
      (handleStart EditorTool.ANGLE hitPointId (some lid) hitAngleId newId
          normX normY st).selectedElementIds = [lid] ∧
      (handleStart EditorTool.ANGLE hitPointId (some lid) hitAngleId newId
          normX normY st).data = st.data) ∧
    (sharedVertexPick conn1 conn2 = none ↔
      conn1.fromId ≠ conn2.fromId ∧ conn1.fromId ≠ conn2.toId ∧
      conn1.toId ≠ conn2.fromId ∧ conn1.toId ≠ conn2.toId) ∧
    (∀ cen q1 q2, angleAlreadyExists st.data.angles cen q1 q2 = true ↔
      ∃ a ∈ st.data.angles, a.center = cen ∧
        ((a.p1 = q1 ∧ a.p2 = q2) ∨ (a.p1 = q2 ∧ a.p2 = q1))) := by
  refine ⟨?_, ?_, ?_, ?_, ?_⟩
  · intro cen q1 q2 hpick
    unfold sharedVertexPick at hpick
    split_ifs at hpick with h1 h2 h3 h4 <;>
      simp only [Option.some.injEq, Prod.mk.injEq] at hpick
    · obtain ⟨hcen, hq1, hq2⟩ := hpick
      subst hcen; subst hq1; subst hq2
      exact ⟨Or.inl ⟨rfl, rfl⟩, Or.inl ⟨h1.symm, rfl⟩⟩
    · obtain ⟨hcen, hq1, hq2⟩ := hpick
      subst hcen; subst hq1; subst hq2
      exact ⟨Or.inl ⟨rfl, rfl⟩, Or.inr ⟨h2.symm, rfl⟩⟩
    · obtain ⟨hcen, hq1, hq2⟩ := hpick
      subst hcen; subst hq1; subst hq2
      exact ⟨Or.inr ⟨rfl, rfl⟩, Or.inl ⟨h3.symm, rfl⟩⟩
    · obtain ⟨hcen, hq1, hq2⟩ := hpick
      subst hcen; subst hq1; subst hq2
      exact ⟨Or.inr ⟨rfl, rfl⟩, Or.inr ⟨h4.symm, rfl⟩⟩
  · intro cen q1 q2 hpick
    refine ⟨?_, ?_, ?_⟩
    · simp [handleStart, hsel, hf1, hf2, hpick]
    · intro hex
      simp [handleStart, hsel, hf1, hf2, hpick, hex]
    · intro hex
      simp [handleStart, hsel, hf1, hf2, hpick, hex]
  · intro hpick
    constructor <;> simp [handleStart, hsel, hf1, hf2, hpick]
  · unfold sharedVertexPick
    split_ifs <;> simp_all
  · intro cen q1 q2
    simp [angleAlreadyExists, List.any_eq_true, Bool.and_eq_true,
      Bool.or_eq_true, beq_iff_eq]

theorem angleTool_pair_selection_witness :
    toggleSelection egStateSel.selectedElementIds "c2" = ["c1", "c2"] ∧
    egStateSel.data.connections.find? (fun c => c.id == "c1") = some egConnAB ∧
    egStateSel.data.connections.find? (fun c => c.id == "c2") = some egConnBC ∧
    sharedVertexPick egConnAB egConnBC = some ("B", "A", "C") ∧
    (handleStart EditorTool.ANGLE none (some "c2") none "n2" 0 0
        egStateSel).selectedElementIds = [] ∧
    (handleStart EditorTool.ANGLE none (some "c2") none "n2" 0 0
        egStateSel).data.angles =
      egStateSel.data.angles ++ [{ id := "n2", p1 := "A", center := "B", p2 := "C" }] := by
  have h := angleTool_pair_selection none none "n2" 0 0 egStateSel "c2" "c1" "c2"
    egConnAB egConnBC rfl rfl rfl
  exact ⟨rfl, rfl, rfl, rfl, (h.2.1 "B" "A" "C" rfl).1, (h.2.1 "B" "A" "C" rfl).2.2 rfl⟩

/-- C10: under the CONNECT tool with a pending start `s`, hitting point `p`
clears the pending start whenever `p ≠ s` (also when the duplicate check
suppressed creation), keeps the pending start and the graph intact when
`p = s`, and never creates a self-connection. -/
theorem connectTool_pending_start (hitLineId hitAngleId : Option String)
    (newId : String) (normX normY : ℝ) (st : EditorState) (s p : String)
    (hpend : st.connectingStartId = some s) :
    (p ≠ s →
      (handleStart EditorTool.CONNECT (some p) hitLineId hitAngleId newId
          normX normY st).connectingStartId = none ∧
      (connectionExists st.data.connections s p = true →
        (handleStart EditorTool.CONNECT (some p) hitLineId hitAngleId newId
          normX normY st).data = st.data) ∧
      (connectionExists st.data.connections s p = false →
        (handleStart EditorTool.CONNECT (some p) hitLineId hitAngleId newId
          normX normY st).data.connections =
          st.data.connections ++ [{ id := newId, fromId := s, toId := p }])) ∧
    (p = s →
      (handleStart EditorTool.CONNECT (some p) hitLineId hitAngleId newId
          normX normY st).connectingStartId = some s ∧
      (handleStart EditorTool.CONNECT (some p) hitLineId hitAngleId newId
          normX normY st).data = st.data) ∧
    (∀ c, c ∈ (handleStart EditorTool.CONNECT (some p) hitLineId hitAngleId
        newId normX normY st).data.connections →
      c ∉ st.data.connections → c.fromId ≠ c.toId) := by
  refine ⟨?_, ?_, ?_⟩
  · intro hne
    have hsp : ¬s = p := fun h => hne h.symm
    refine ⟨?_, ?_, ?_⟩
    · simp [handleStart, hpend, hsp]
    · intro hex
      simp [handleStart, hpend, hsp, hex]
    · intro hex
      simp [handleStart, hpend, hsp, hex]
  · intro he
    subst he
    constructor <;> simp [handleStart, hpend]
  · intro c hcmem hcnot
    by_cases hps : s = p
    · subst hps
      simp [handleStart, hpend] at hcmem
      exact absurd hcmem hcnot
    · by_cases hex : connectionExists st.data.connections s p = true
      · simp [handleStart, hpend, hps, hex] at hcmem
        exact absurd hcmem hcnot
      · simp [handleStart, hpend, hps,
          (Bool.not_eq_true _).mp hex] at hcmem
        rcases hcmem with hcm | hcm
        · exact absurd hcm hcnot
        · subst hcm
          exact hps

theorem connectTool_pending_start_witness :
    egStateConnect.connectingStartId = some "A" ∧
    ("C" : String) ≠ "A" ∧
    connectionExists egStateConnect.data.connections "A" "C" = false ∧
    (handleStart EditorTool.CONNECT (some "C") none none "n3" 0 0
        egStateConnect).connectingStartId = none ∧
    (handleStart EditorTool.CONNECT (some "C") none none "n3" 0 0
        egStateConnect).data.connections =
      egStateConnect.data.connections ++
        [{ id := "n3", fromId := "A", toId := "C" }] := by
  have h := connectTool_pending_start none none "n3" 0 0 egStateConnect "A" "C" rfl
  exact ⟨rfl, by decide, rfl, (h.1 (by decide)).1, (h.1 (by decide)).2.2 rfl⟩

/-- C9: `hitTestAngle` on an angle whose three referenced points all
resolve returns the angle id exactly when the cursor is within tolerance
of the label point — placed at the fixed 45-pixel radius from the
projected center along the midpoint bearing of the shorter arc, whose
normalized bearing difference lies in `(-π, π]` (the radian form of the
`(-180°, 180°]` interval); proximity to the arc or the arms themselves
never produces a hit. -/
theorem hitTestAngle_label_proximity (x y : ℝ) (a : EditorAngle)
    (points : List EditorPoint) (layout : EditorLayout) (tolerance : ℝ)
    (p1 pc p2 : EditorPoint)
    (h1 : points.find? (fun q => q.id == a.p1) = some p1)
    (hc : points.find? (fun q => q.id == a.center) = some pc)
    (h2 : points.find? (fun q => q.id == a.p2) = some p2) :
    (hitTestAngle x y [a] points layout tolerance = some a.id ↔
      getDistance { x := x, y := y } (angleLabelPoint p1 pc p2 layout) <
        tolerance) ∧
    angleNormDiff p1 pc p2 layout ∈ Set.Ioc (-Real.pi) Real.pi := by
  constructor
  · simp only [hitTestAngle, h1, hc, h2, angleLabelPoint, angleNormDiff]
    split
    · simp_all
    · simp_all [hitTestAngle]
  · obtain ⟨hs1, hs2⟩ := atan2_mem_Ioc
      ((project p1 layout).y - (project pc layout).y)
      ((project p1 layout).x - (project pc layout).x)
    obtain ⟨he1, he2⟩ := atan2_mem_Ioc
      ((project p2 layout).y - (project pc layout).y)
      ((project p2 layout).x - (project pc layout).x)
    simp only [angleNormDiff, Set.mem_Ioc]
    split_ifs <;> constructor <;> linarith

theorem hitTestAngle_label_proximity_witness :
    egEPoints.find? (fun q => q.id == egEAngle.p1) = some egEP1 ∧
    egEPoints.find? (fun q => q.id == egEAngle.center) = some egEPc ∧
    egEPoints.find? (fun q => q.id == egEAngle.p2) = some egEP2 ∧
    ((hitTestAngle 0 0 [egEAngle] egEPoints egLayout 35 = some egEAngle.id ↔
        getDistance { x := 0, y := 0 }
          (angleLabelPoint egEP1 egEPc egEP2 egLayout) < 35) ∧
      angleNormDiff egEP1 egEPc egEP2 egLayout ∈
        Set.Ioc (-Real.pi) Real.pi) :=
  ⟨rfl, rfl, rfl,
    hitTestAngle_label_proximity 0 0 egEAngle egEPoints egLayout 35
      egEP1 egEPc egEP2 rfl rfl rfl⟩

/-- C4 counterexample: every shoulder-mobility pose is captured with a
skeleton containing no keypoints at all, yet the `shoulder_mobility`
analyze still returns a report (score 0) rather than absent. -/
theorem shoulderMobility_reports_without_keypoints :
    shoulderMobilityAnalyze egPoseMap egTranslator egFmtR ≠ none :=
  fun h => Option.noConfusion h

/-- C4 amended: the single-skeleton `shoulder_level` test returns absent
when a prerequisite shoulder keypoint is missing, while the multi-pose
`shoulder_mobility` and `neck_mobility` analyzers always return a report,
whatever their inputs. -/
theorem analyze_missing_keypoints_behavior :
    (∀ (data : String → Option Point) (t : String → List String → String)
        (fz : ℤ → String),
      (data "leftShoulder" = none ∨ data "rightShoulder" = none) →
      shoulderLevelAnalyze data t fz = none) ∧
    (∀ (dm : String → Option AIAnalysisResult)
        (t : String → List String → String) (fr : ℝ → String),
      (shoulderMobilityAnalyze dm t fr).isSome = true) ∧
    (∀ (dm : String → Option AIAnalysisResult)
        (t : String → List String → String) (fr : ℝ → String),
      (neckMobilityAnalyze dm t fr).isSome = true) := by
  refine ⟨?_, fun _ _ _ => rfl, fun _ _ _ => rfl⟩
  intro data t fz h
  cases hL : data "leftShoulder" <;> cases hR : data "rightShoulder" <;>
    simp_all [shoulderLevelAnalyze]

theorem analyze_missing_keypoints_behavior_witness :
    (emptySkeleton "leftShoulder" = none ∨
      emptySkeleton "rightShoulder" = none) ∧
    shoulderLevelAnalyze emptySkeleton egTranslator egFmtZ = none ∧
    (shoulderMobilityAnalyze egPoseMap egTranslator egFmtR).isSome = true ∧
    (neckMobilityAnalyze egPoseMap egTranslator egFmtR).isSome = true :=
  ⟨Or.inl rfl,
    analyze_missing_keypoints_behavior.1 emptySkeleton egTranslator egFmtZ
      (Or.inl rfl),
    analyze_missing_keypoints_behavior.2.1 egPoseMap egTranslator egFmtR,
    analyze_missing_keypoints_behavior.2.2 egPoseMap egTranslator egFmtR⟩
